import Mathlib

/-!
Shallow embedding of the weewx-influx uploader (src/bin/user/influx.py):
the field template resolver, the record encoder, the HTTP response
classifier and the worker exception classifier, together with theorems
settling the specification claims.

Python records are association lists of string keys and Python values in
insertion order (Python dicts preserve insertion order).  Python
exceptions are modelled with Except; the exception class matters because
format_items catches exactly TypeError and ValueError.
-/

namespace Influx

/-- Python values that occur in a weewx observation record.  A numeric
value (int or float) is carried by its Python str() rendering, which is
all the encoder ever computes from it on the default path: the default
format is the string "%s" and f-string interpolation both apply str(). -/
inductive PyVal where
  | num (s : String)
  | pstr (s : String)
  | pynone
deriving DecidableEq, Repr

/-- Python str() of a value. -/
def pyStr : PyVal → String
  | .num s => s
  | .pstr s => s
  | .pynone => "None"

/-- An observation record: a Python dict as an insertion-ordered
association list. -/
abbrev Record := List (String × PyVal)

/-- Python exception classes distinguished by the encoder.  format_items
catches TypeError and ValueError only. -/
inductive PyExc where
  | typeError
  | valueError
  | keyError
  | otherError
deriving DecidableEq, Repr

/-- Dict subscription record[key]: the value, or a KeyError. -/
def recLookup (record : Record) (key : String) : Except PyExc PyVal :=
  match List.lookup key record with
  | some v => .ok v
  | none => .error .keyError

/-- Dict record.pop(key, None): the value of the first matching entry if
any, and the record with that entry removed. -/
def popKey (record : Record) (key : String) : Option PyVal × Record :=
  match record with
  | [] => (none, [])
  | (k, v) :: rest =>
    if k = key then (some v, rest)
    else
      let p := popKey rest key
      (p.1, (k, v) :: p.2)

/-- Character list ls starts with the character list pat. -/
def listStarts : List Char → List Char → Bool
  | [], _ => true
  | _ :: _, [] => false
  | p :: ps, c :: cs => p = c && listStarts ps cs

/-- Character list ls has pat as a contiguous sublist. -/
def lContains : List Char → List Char → Bool
  | [], pat => listStarts pat []
  | c :: rest, pat => listStarts pat (c :: rest) || lContains rest pat

/-- Python s.find(pat) >= 0: pat occurs as a substring of s. -/
def strContains (s pat : String) : Bool := lContains s.data pat.data

/-- Python s.startswith(pat). -/
def strStarts (s pat : String) : Bool := listStarts pat.data s.data

/-- Python truthiness of an optional string: None and the empty string
are falsy. -/
def strTruthy (t : Option String) : Bool := !(t.getD "").data.isEmpty

/-- UNIT_REDUCTIONS from the source: unit names shortened for InfluxDB;
a value of none records the Python value None (no suffix). -/
def UNIT_REDUCTIONS : List (String × Option String) :=
  [("degree_F", some "F"),
   ("degree_C", some "C"),
   ("inch", some "in"),
   ("mile_per_hour", some "mph"),
   ("mile_per_hour2", some "mph"),
   ("km_per_hour", some "kph"),
   ("km_per_hour2", some "kph"),
   ("knot", some "knot"),
   ("knot2", some "knot"),
   ("meter_per_second", some "mps"),
   ("meter_per_second2", some "mps"),
   ("degree_compass", none),
   ("watt_per_meter_squared", some "Wpm2"),
   ("uv_index", none),
   ("percent", none),
   ("unix_epoch", none)]

/-- OBS_TO_SKIP from the source: observations skipped when obs_to_upload
is the string "most". -/
def OBS_TO_SKIP : List String := ["dateTime", "interval", "usUnits"]

/-- A field template: the dict built by _get_template, which only ever
holds the keys name, format and units. -/
structure Template where
  name : Option String := none
  format : Option String := none
  units : Option String := none
deriving DecidableEq, Repr

/-- Host collaborator services from the weewx package (external to this
repository): getStandardUnitType yields the standard unit and unit group
of an observation key under a unit system; conv models
weewx.units.convert composed with taking the converted magnitude; fmtValue
models the Python percent-formatting operator for formats other than the
default "%s". -/
structure Weewx where
  gsu : PyVal → String → Option String × Option String
  conv : PyVal → Option String → Option String → String → Except PyExc PyVal
  fmtValue : String → PyVal → Except PyExc String

/-- Python fmt % value.  For the default format "%s" this is str(value)
and never raises; other formats defer to the host model. -/
def fmtApply (W : Weewx) (fmt : String) (v : PyVal) : Except PyExc String :=
  if fmt = "%s" then .ok (pyStr v) else W.fmtValue fmt v

/-- Per-key override lookup self.inputs.get(key, \x7b\x7d). -/
def inputsGet (inputs : List (String × Template)) (key : String) : Template :=
  (List.lookup key inputs).getD {}

/-- The function _get_template from the source: computes the template for
an observation key from the overrides, the append-units flag and the unit
system.  The suffix computation runs first; the final loop copies any of
name, format, units present in the overrides over the computed entries. -/
def _get_template (gsu : PyVal → String → Option String × Option String)
    (obs_key : String) (overrides : Template) (append_units_label : Bool)
    (unit_system : PyVal) : Template :=
  let computedName : Option String :=
    if append_units_label then
      let unit_type : Option String :=
        match overrides.units with
        | some u => some u
        | none => (gsu unit_system obs_key).1
      let label : Option String :=
        match unit_type with
        | none => none
        | some u =>
          match List.lookup u UNIT_REDUCTIONS with
          | some v => v
          | none => some u
      match label with
      | some l => some (obs_key ++ "_" ++ l)
      | none => none
    else none
  { name := match overrides.name with
      | some n => some n
      | none => computedName,
    format := overrides.format,
    units := overrides.units }

/-- Destination configuration of the InfluxThread, immutable after
construction. -/
structure Config where
  server_url : String
  measurement : String := "record"
  tags : Option String := none
  obs_to_upload : String := "most"
  append_units_label : Bool := true
  line_format : String := "single-line"
  inputs : List (String × Template) := []

/-- Loop body of get_templates for the "all" and "most" branches: walk
the record keys in insertion order, skipping OBS_TO_SKIP in "most" mode
and keys already templated; each template creation reads
record["usUnits"], which raises KeyError when absent. -/
def get_templates_go (W : Weewx) (cfg : Config) (record : Record) :
    List (String × PyVal) → List (String × Template) →
    Except PyExc (List (String × Template))
  | [], ts => .ok ts
  | (key, _) :: rest, ts =>
    if cfg.obs_to_upload = "most" ∧ key ∈ OBS_TO_SKIP then
      get_templates_go W cfg record rest ts
    else if (List.lookup key ts).isSome then
      get_templates_go W cfg record rest ts
    else
      match recLookup record "usUnits" with
      | .error e => .error e
      | .ok us =>
        get_templates_go W cfg record rest
          (ts ++ [(key,
            _get_template W.gsu key (inputsGet cfg.inputs key)
              cfg.append_units_label us)])

/-- Loop body of get_templates for the explicit-inputs branch: walk the
inputs list in its own insertion order. -/
def get_templates_inputs (W : Weewx) (cfg : Config) (record : Record) :
    List (String × Template) → Except PyExc (List (String × Template))
  | [] => .ok []
  | (key, ov) :: rest =>
    match recLookup record "usUnits" with
    | .error e => .error e
    | .ok us =>
      match get_templates_inputs W cfg record rest with
      | .error e => .error e
      | .ok ts =>
        .ok ((key, _get_template W.gsu key ov cfg.append_units_label us) :: ts)

/-- The method get_templates from the source. -/
def get_templates (W : Weewx) (cfg : Config) (record : Record) :
    Except PyExc (List (String × Template)) :=
  if cfg.obs_to_upload = "all" ∨ cfg.obs_to_upload = "most" then
    get_templates_go W cfg record record []
  else
    get_templates_inputs W cfg record cfg.inputs

/-- The static method _float_to_string from the source: format defaults
to "%s"; with a units override the value is converted from the standard
unit of the key first. -/
def _float_to_string (W : Weewx) (template : Template) (value : PyVal)
    (key : String) (unit_system : PyVal) : Except PyExc String :=
  let fmt := template.format.getD "%s"
  match template.units with
  | some to_units =>
    let fu := W.gsu unit_system key
    match W.conv value fu.1 fu.2 to_units with
    | .error e => .error e
    | .ok c => fmtApply W fmt c
  | none => fmtApply W fmt value

/-- Body of the try block in format_items for one template: look the
value up in the record (KeyError when absent), format it, and build the
output line for the configured line format.  The multi-line shapes also
read record["dateTime"]. -/
def format_one (W : Weewx) (cfg : Config) (key : String)
    (template : Template) (tags : String) (record : Record) :
    Except PyExc String :=
  match recLookup record key with
  | .error e => .error e
  | .ok value =>
    match recLookup record "usUnits" with
    | .error e => .error e
    | .ok us =>
      match _float_to_string W template value key us with
      | .error e => .error e
      | .ok s =>
        let nm := template.name.getD key
        if cfg.line_format = "multi-line-dotted" then
          match recLookup record "dateTime" with
          | .error e => .error e
          | .ok dt =>
            .ok (cfg.measurement ++ "." ++ nm ++ tags ++ " value=" ++ s
                 ++ " " ++ pyStr dt)
        else if cfg.line_format = "multi-line" then
          match recLookup record "dateTime" with
          | .error e => .error e
          | .ok dt =>
            .ok (nm ++ tags ++ " value=" ++ s ++ " " ++ pyStr dt)
        else
          .ok (nm ++ "=" ++ s)

/-- The method format_items from the source: loop over the templates; a
TypeError or ValueError from one item is caught and the item skipped; any
other exception (notably KeyError) propagates and discards the whole
result. -/
def format_items (W : Weewx) (cfg : Config) :
    List (String × Template) → String → Record → Except PyExc (List String)
  | [], _, _ => .ok []
  | (key, template) :: rest, tags, record =>
    match format_one W cfg key template tags record with
    | .ok line =>
      match format_items W cfg rest tags record with
      | .error e => .error e
      | .ok data => .ok (line :: data)
    | .error e =>
      if e = .typeError ∨ e = .valueError then
        format_items W cfg rest tags record
      else
        .error e

/-- Tag segment assembly at the top of get_post_body: a binding tag when
the popped binding value is not None, then the configured static tags
after a comma when they are truthy. -/
def mkTags (binding : Option PyVal) (cfgTags : Option String) : String :=
  let tags :=
    match binding with
    | some b => if b = PyVal.pynone then "" else ",binding=" ++ pyStr b
    | none => ""
  if strTruthy cfgTags then tags ++ "," ++ cfgTags.getD "" else tags

/-- Content type returned by get_post_body. -/
def contentType : String := "text/plain; charset=utf-8"

/-- The method get_post_body from the source.  The binding entry is
popped from the record itself before encoding; the record component of
the result is the state of the caller record when the method returns. -/
def get_post_body (W : Weewx) (cfg : Config) (record : Record) :
    Except PyExc (String × String × Record) :=
  let p := popKey record "binding"
  let rec2 := p.2
  let tags := mkTags p.1 cfg.tags
  match get_templates W cfg rec2 with
  | .error e => .error e
  | .ok templates =>
    match format_items W cfg templates tags rec2 with
    | .error e => .error e
    | .ok data =>
      if cfg.line_format = "multi-line" ∨ cfg.line_format = "multi-line-dotted" then
        .ok (String.intercalate "\n" data, contentType, rec2)
      else
        match recLookup rec2 "dateTime" with
        | .error e => .error e
        | .ok dt =>
          .ok (cfg.measurement ++ tags ++ " " ++ String.intercalate "," data
               ++ " " ++ pyStr dt, contentType, rec2)

/-- Signals raised by the delivery path: FailedPost is retryable,
AbortedPost is fatal and stops the worker. -/
inductive PostSignal where
  | failedPost (msg : String)
  | abortedPost (msg : String)
deriving DecidableEq, Repr

/-- ASCII single quote used in the FailedPost message. -/
def chr39 : String := String.singleton (Char.ofNat 39)

/-- The method check_response from the source: HTTP 204 succeeds without
reading the body; otherwise the body must be truthy and contain the
marker "results"; anything else raises FailedPost. -/
def check_response (code : Nat) (body : String) : Except PostSignal Unit :=
  if code = 204 then .ok ()
  else if !body.data.isEmpty && strContains body "results" then .ok ()
  else .error (.failedPost
    ("Server returned " ++ chr39 ++ body ++ chr39 ++ " (" ++ toString code ++ ")"))

/-- Outcome of handle_exception: either it raises AbortedPost, or it
delegates to the superclass handler, which counts the attempt against
max_tries and retries. -/
inductive ExcOutcome where
  | abortedPost (msg : String)
  | delegated
deriving DecidableEq, Repr

/-- The method handle_exception from the source: only an HTTPError whose
body is truthy, contains "error" and contains "database not found" raises
AbortedPost; every other exception is delegated to the superclass. -/
def handle_exception (isHTTPError : Bool) (body : String) : ExcOutcome :=
  if isHTTPError then
    if !body.data.isEmpty && strContains body "error" then
      if strContains body "database not found" then ExcOutcome.abortedPost body
      else ExcOutcome.delegated
    else ExcOutcome.delegated
  else ExcOutcome.delegated

/-- Delivery path taken by post_request: an urlopen call with an
unverified SSL context, or the superclass default path.  The payload data
is utf-8 encoded only when truthy, mirroring the source. -/
inductive PostPath where
  | unverifiedSSL (encoded : Option String)
  | defaultPath (data : Option String)
deriving DecidableEq, Repr

/-- The method post_request from the source: a server_url starting with
"https" is posted through an SSL context with certificate verification
disabled; any other server_url delegates to the superclass. -/
def post_request (cfg : Config) (data : Option String) : PostPath :=
  if strStarts cfg.server_url "https" then
    PostPath.unverifiedSSL (if strTruthy data then data else none)
  else
    PostPath.defaultPath data

/-- Final state of one record in the worker. -/
inductive Outcome where
  | delivered
  | abandoned
  | aborted (msg : String)
deriving DecidableEq, Repr

/-- Loop body for attemptLoop: tries is the number of attempts left,
attempted counts the attempts made so far. -/
def attemptLoopGo (body : String) (attempted : Nat) : Nat → Outcome × Nat
  | 0 => (Outcome.abandoned, attempted)
  | tries + 1 =>
    match handle_exception true body with
    | .abortedPost m => (Outcome.aborted m, attempted + 1)
    | .delegated => attemptLoopGo body (attempted + 1) tries

/-- Modelled from the spec: the retry loop of the generic REST worker
(method process_record of weewx RESTThread, which src only overrides in
parts), run against a destination that fails every attempt with the same
HTTP error body.  The spec states that on a retryable failure the worker
retries up to max_tries attempts and then abandons the record, and that a
fatal classification aborts the worker; each failed attempt is classified
by handle_exception, whose AbortedPost ends the loop at once. -/
def attemptLoop (maxTries : Nat) (body : String) : Outcome × Nat :=
  attemptLoopGo body 0 maxTries

/-- Modelled from the spec: the standard-unit lookup of the host weewx
package (weewx.units.getStandardUnitType) for the US unit system, with
unit system 1, restricted to the observation keys of the example
scenario; unknown keys map to no unit, as in weewx.  Unit conversion and
non-default formats are not exercised by the examples (no unit or format
overrides), so those services are left always failing. -/
def weewxUS : Weewx where
  gsu := fun us key =>
    if us = PyVal.num "1" then
      if key = "outTemp" ∨ key = "inTemp" then
        (some "degree_F", some "group_temperature")
      else if key = "outHumidity" then (some "percent", some "group_percent")
      else (none, none)
    else (none, none)
  conv := fun _ _ _ _ => .error .typeError
  fmtValue := fun _ _ => .error .valueError

/-- Destination configuration of the example scenario: selection mode
"most", no overrides, append-units on, tags "station=test", single-line
format. -/
def cfgExample : Config where
  server_url := "http://localhost:8086"
  measurement := "record"
  tags := some "station=test"
  obs_to_upload := "most"
  append_units_label := true
  line_format := "single-line"
  inputs := []

/-- Record of the example scenario as the binding adapter enqueues it:
the binding tag first, then the fields in insertion order. -/
def recExample : Record :=
  [("binding", PyVal.pstr "archive"),
   ("dateTime", PyVal.num "1700000000"),
   ("usUnits", PyVal.num "1"),
   ("outTemp", PyVal.num "33.5"),
   ("inTemp", PyVal.num "75.8"),
   ("outHumidity", PyVal.num "24")]

/-- The example record after encoding: binding has been popped. -/
def recExamplePopped : Record :=
  [("dateTime", PyVal.num "1700000000"),
   ("usUnits", PyVal.num "1"),
   ("outTemp", PyVal.num "33.5"),
   ("inTemp", PyVal.num "75.8"),
   ("outHumidity", PyVal.num "24")]

/-- Tag segment contributed by the popped binding value: the source
emits ,binding=value for a binding value other than None. -/
def bindingTag : Option PyVal → String
  | some b => if b = PyVal.pynone then "" else ",binding=" ++ pyStr b
  | none => ""

/-- Tag segment contributed by the configured static tags: a comma and
the tag list when it is truthy. -/
def staticTag (t : Option String) : String :=
  if strTruthy t then "," ++ t.getD "" else ""

/-- The host services raise only TypeError or ValueError: format_items
catches exactly those two classes, so this is the hypothesis under which
a field failure stays local to the field. -/
def BenignW (W : Weewx) : Prop :=
  (∀ fmt v e, W.fmtValue fmt v = .error e →
    e = PyExc.typeError ∨ e = PyExc.valueError) ∧
  (∀ v u g tu e, W.conv v u g tu = .error e →
    e = PyExc.typeError ∨ e = PyExc.valueError)

/-- Template computed for one record entry by the all and most branches
of get_templates: none when the key is skipped in most mode, otherwise
the resolved template paired with the key. -/
def tmplFor (W : Weewx) (cfg : Config) (us : PyVal) (p : String × PyVal) :
    Option (String × Template) :=
  if cfg.obs_to_upload = "most" ∧ p.1 ∈ OBS_TO_SKIP then none
  else some (p.1, _get_template W.gsu p.1 (inputsGet cfg.inputs p.1)
    cfg.append_units_label us)

/-- Output field contributed by one record entry in the all and most
branches: none when the key is skipped or its formatting raised, the
formatted item otherwise. -/
def fieldFor (W : Weewx) (cfg : Config) (us : PyVal) (tags : String)
    (rec2 : Record) (p : String × PyVal) : Option String :=
  (tmplFor W cfg us p).bind
    (fun q => (format_one W cfg q.1 q.2 tags rec2).toOption)

/-! ### Helper lemmas -/

theorem popKey_of_lookup_none (r : Record) (k : String)
    (h : List.lookup k r = none) : popKey r k = (none, r) := by
  induction r with
  | nil => rfl
  | cons hd tl ih =>
    obtain ⟨k1, v1⟩ := hd
    by_cases hk : k = k1
    · subst hk
      simp [List.lookup] at h
    · have hbeq : (k == k1) = false := beq_eq_false_iff_ne.mpr hk
      have htl : List.lookup k tl = none := by
        rwa [List.lookup, hbeq] at h
      have hne : ¬ k1 = k := fun he => hk he.symm
      simp [popKey, hne, ih htl]

theorem listStarts_append_self (p x : List Char) : listStarts p (p ++ x) = true := by
  induction p with
  | nil => rfl
  | cons c cs ih => simp [listStarts, ih]

theorem strContains_false_of_data_nil (body pat : String) (hp : pat.data ≠ [])
    (h : body.data = []) : strContains body pat = false := by
  unfold strContains
  rw [h]
  cases hc : pat.data with
  | nil => exact absurd hc hp
  | cons c cs => simp [lContains, hc, listStarts]

theorem handle_exception_abort (body : String)
    (h1 : body.data.isEmpty = false)
    (h2 : strContains body "error" = true)
    (h3 : strContains body "database not found" = true) :
    handle_exception true body = ExcOutcome.abortedPost body := by
  simp [handle_exception, h1, h2, h3]

theorem attemptLoopGo_delegated (body : String)
    (h : handle_exception true body = ExcOutcome.delegated) :
    ∀ n a, attemptLoopGo body a n = (Outcome.abandoned, a + n) := by
  intro n
  induction n with
  | zero => intro a; rfl
  | succ m ih =>
    intro a
    rw [attemptLoopGo, h, ih (a + 1)]
    ring_nf

theorem attemptLoopGo_abort (body msg : String)
    (h : handle_exception true body = ExcOutcome.abortedPost msg) :
    ∀ n a, attemptLoopGo body a (n + 1) = (Outcome.aborted msg, a + 1) := by
  intro n a
  rw [attemptLoopGo, h]

/-! ### Claim theorems -/

/-- C1: on the record of the example scenario with selection mode "most",
no overrides, append-units on, binding "archive", tags "station=test" and
single-line format, get_post_body produces exactly the payload
record,binding=archive,station=test outTemp_F=33.5,inTemp_F=75.8,outHumidity=24 1700000000
with the text/plain content type. -/
theorem claim_example_scenario_payload :
    get_post_body weewxUS cfgExample recExample =
      .ok ("record,binding=archive,station=test outTemp_F=33.5,inTemp_F=75.8,outHumidity=24 1700000000",
           contentType, recExamplePopped) := rfl

/-- C2 counterexample: against a destination whose error body contains
"bucket not found" (with an "error" marker, but without the literal text
"database not found"), handle_exception delegates to the retrying
superclass handler, so the worker makes all max_tries = 3 attempts and
abandons the record instead of making at most one attempt and aborting,
refuting the claim for the "bucket not found" case. -/
theorem claim_bucket_not_found_retried :
    strContains "error bucket not found" "bucket not found" = true ∧
    handle_exception true "error bucket not found" = ExcOutcome.delegated ∧
    attemptLoop 3 "error bucket not found" = (Outcome.abandoned, 3) ∧
    (3 : Nat) ≠ 1 :=
  ⟨rfl, rfl, rfl, by decide⟩

/-- C2 (amended): an HTTP error body aborts the worker on the first
attempt exactly when it is nonempty, contains "error" and contains
"database not found" (the code never checks for "bucket not found");
every body that handle_exception delegates is retried until the
configured max_tries attempts are exhausted and the record abandoned. -/
theorem claim_fatal_classification_amended (maxTries : Nat) (body : String)
    (hmt : 1 ≤ maxTries) :
    (body.data.isEmpty = false → strContains body "error" = true →
      strContains body "database not found" = true →
      attemptLoop maxTries body = (Outcome.aborted body, 1)) ∧
    (handle_exception true body = ExcOutcome.delegated →
      attemptLoop maxTries body = (Outcome.abandoned, maxTries)) := by
  constructor
  · intro h1 h2 h3
    obtain ⟨m, rfl⟩ : ∃ m, maxTries = m + 1 := ⟨maxTries - 1, by omega⟩
    unfold attemptLoop
    rw [attemptLoopGo_abort body body (handle_exception_abort body h1 h2 h3) m 0]
  · intro h
    unfold attemptLoop
    rw [attemptLoopGo_delegated body h maxTries 0]
    simp

/-- C2 witness: with max_tries 3 and the error body
"error database not found", the worker aborts after exactly one
attempt. -/
theorem claim_fatal_classification_amended_witness :
    attemptLoop 3 "error database not found" =
      (Outcome.aborted "error database not found", 1) :=
  (claim_fatal_classification_amended 3 "error database not found"
    (by decide)).1 rfl rfl rfl

/-- C9: check_response returns normally exactly when the status code is
204 or the body contains the success marker "results"; in every other
case it raises FailedPost and never AbortedPost. -/
theorem claim_check_response_classification (code : Nat) (body : String) :
    (check_response code body = .ok () ↔
      (code = 204 ∨ strContains body "results" = true)) ∧
    (∀ msg, check_response code body ≠ .error (PostSignal.abortedPost msg)) := by
  constructor
  · by_cases hc : code = 204
    · simp [check_response, hc]
    · by_cases hb : (!body.data.isEmpty && strContains body "results") = true
      · have hr : strContains body "results" = true := by
          rcases Bool.and_eq_true_iff.mp hb with ⟨-, h2⟩
          exact h2
        have hne : ¬ body.data = [] := by
          rcases Bool.and_eq_true_iff.mp hb with ⟨h1, -⟩
          intro hnil
          rw [hnil] at h1
          simp at h1
        simp [check_response, hc, hb, hr, hne]
      · have hr : ¬ strContains body "results" = true := by
          intro hcont
          apply hb
          refine Bool.and_eq_true_iff.mpr ⟨?_, hcont⟩
          cases he : body.data.isEmpty
          · rfl
          · have hnil : body.data = [] := List.isEmpty_iff.mp he
            have : strContains body "results" = false :=
              strContains_false_of_data_nil body "results" (by decide) hnil
            rw [this] at hcont
            exact absurd hcont (by decide)
        simp [check_response, hc, hb, hr]
  · intro msg
    unfold check_response
    split
    · simp
    · split
      · simp
      · simp

/-- C9 witness: an HTTP 200 response whose body contains the marker
"results" is accepted as delivered. -/
theorem claim_check_response_classification_witness :
    check_response 200 "ok results follow" = .ok () :=
  (claim_check_response_classification 200 "ok results follow").1.mpr
    (Or.inr rfl)

/-- C10: post_request routes every destination whose server_url starts
with "https" through an urlopen call with certificate verification
disabled (an unverified SSL context), encoding the payload only when it
is truthy, and delegates every other server_url to the default posting
path of the superclass. -/
theorem claim_post_request_ssl_dispatch (cfg : Config) (data : Option String) :
    (strStarts cfg.server_url "https" = true →
      post_request cfg data =
        PostPath.unverifiedSSL (if strTruthy data then data else none)) ∧
    (strStarts cfg.server_url "https" = false →
      post_request cfg data = PostPath.defaultPath data) := by
  constructor <;> intro h <;> simp [post_request, h]

/-- C10 witness: an https destination posts its payload through the
unverified SSL path. -/
theorem claim_post_request_ssl_dispatch_witness :
    post_request { server_url := "https://acme.example" } (some "m f=1 2") =
      PostPath.unverifiedSSL (some "m f=1 2") :=
  (claim_post_request_ssl_dispatch { server_url := "https://acme.example" }
    (some "m f=1 2")).1 rfl

theorem get_post_body_record_component (W : Weewx) (cfg : Config)
    (record : Record) (p ct : String) (r2 : Record)
    (h : get_post_body W cfg record = .ok (p, ct, r2)) :
    r2 = (popKey record "binding").2 := by
  simp only [get_post_body] at h
  split at h
  · exact absurd h (by simp)
  · split at h
    · exact absurd h (by simp)
    · split at h
      · simp at h
        exact h.2.2.symm
      · split at h
        · exact absurd h (by simp)
        · simp at h
          exact h.2.2.symm

/-- C4 counterexample: encoding the example record twice through the
same object (the first call pops the binding entry from the record in
place) yields two different payloads: the binding tag is present in the
first payload and absent from the second. -/
theorem claim_encode_twice_differs_with_binding :
    get_post_body weewxUS cfgExample recExample =
      .ok ("record,binding=archive,station=test outTemp_F=33.5,inTemp_F=75.8,outHumidity=24 1700000000",
           contentType, recExamplePopped) ∧
    get_post_body weewxUS cfgExample recExamplePopped =
      .ok ("record,station=test outTemp_F=33.5,inTemp_F=75.8,outHumidity=24 1700000000",
           contentType, recExamplePopped) ∧
    ("record,binding=archive,station=test outTemp_F=33.5,inTemp_F=75.8,outHumidity=24 1700000000" ≠
     "record,station=test outTemp_F=33.5,inTemp_F=75.8,outHumidity=24 1700000000") :=
  ⟨rfl, rfl, by decide⟩

/-- C4 (amended): for a record that carries no binding entry the encoder
leaves the record unchanged, so encoding it a second time yields the
byte-identical payload; idempotence fails exactly because a record that
carries a binding entry has it popped in place by the first call. -/
theorem claim_encode_idempotent_amended (W : Weewx) (cfg : Config)
    (record : Record) (p ct : String) (r2 : Record)
    (hb : List.lookup "binding" record = none)
    (h : get_post_body W cfg record = .ok (p, ct, r2)) :
    get_post_body W cfg r2 = .ok (p, ct, r2) := by
  have hr : r2 = record := by
    rw [get_post_body_record_component W cfg record p ct r2 h,
        popKey_of_lookup_none record "binding" hb]
  subst hr
  exact h

/-- C4 witness: the binding-free example record encodes the second time
to the same payload as the first. -/
theorem claim_encode_idempotent_amended_witness :
    get_post_body weewxUS cfgExample recExamplePopped =
      .ok ("record,station=test outTemp_F=33.5,inTemp_F=75.8,outHumidity=24 1700000000",
           contentType, recExamplePopped) :=
  claim_encode_idempotent_amended weewxUS cfgExample recExamplePopped _ _ _
    rfl rfl

/-- C5 counterexample: after get_post_body returns on the example record
the caller record has lost its binding entry, so the record mapping of
the caller is mutated, refuting the claim that popping happens on a
copy. -/
theorem claim_record_mutated_by_encoder :
    get_post_body weewxUS cfgExample recExample =
      .ok ("record,binding=archive,station=test outTemp_F=33.5,inTemp_F=75.8,outHumidity=24 1700000000",
           contentType, recExamplePopped) ∧
    recExamplePopped ≠ recExample :=
  ⟨rfl, by decide⟩

/-- C5 (amended): get_post_body mutates the caller record exactly by
popping the first binding entry in place and in no other way: the record
the caller holds after the call is the input record with that entry
removed, and it is unchanged precisely when the record carried no
binding entry. -/
theorem claim_encoder_frame_amended (W : Weewx) (cfg : Config)
    (record : Record) (p ct : String) (r2 : Record)
    (h : get_post_body W cfg record = .ok (p, ct, r2)) :
    r2 = (popKey record "binding").2 ∧
    (List.lookup "binding" record = none → r2 = record) := by
  have hr := get_post_body_record_component W cfg record p ct r2 h
  exact ⟨hr, fun hb => by rw [hr, popKey_of_lookup_none record "binding" hb]⟩

/-- C5 witness: on the example record the caller is left holding the
record with the binding entry removed. -/
theorem claim_encoder_frame_amended_witness :
    recExamplePopped = (popKey recExample "binding").2 ∧
    (List.lookup "binding" recExample = none → recExamplePopped = recExample) :=
  claim_encoder_frame_amended weewxUS cfgExample recExample _ _ _ rfl

/-- C7: the template resolver gives explicit overrides precedence over
every computed value (the units and format entries are exactly the
overridden ones, and an overridden name wins over the computed suffix
name); with no name override the output name is the input key unchanged
whenever the append flag is off or no unit suffix applies, and the
effective format defaults to the generic formatter "%s", under which a
value renders as its str(); when the append flag is on and the standard
unit of the field maps through UNIT_REDUCTIONS to a suffix, the name
becomes key_suffix, while dimensionless units such as percent and
degree_compass map to no suffix. -/
theorem claim_template_resolver_precedence
    (gsu : PyVal → String → Option String × Option String)
    (key : String) (ov : Template) (app : Bool) (us : PyVal) :
    ((_get_template gsu key ov app us).format = ov.format) ∧
    ((_get_template gsu key ov app us).units = ov.units) ∧
    (∀ n, ov.name = some n → (_get_template gsu key ov app us).name = some n) ∧
    (ov.name = none → app = false → (_get_template gsu key ov app us).name = none) ∧
    (ov.name = none → ov.units = none → (gsu us key).1 = none →
      (_get_template gsu key ov app us).name = none) ∧
    (∀ u l, ov.name = none → app = true → ov.units = none →
      (gsu us key).1 = some u →
      List.lookup u UNIT_REDUCTIONS = some (some l) →
      (_get_template gsu key ov app us).name = some (key ++ "_" ++ l)) ∧
    (∀ u, ov.name = none → app = true → ov.units = none →
      (gsu us key).1 = some u →
      List.lookup u UNIT_REDUCTIONS = some none →
      (_get_template gsu key ov app us).name = none) ∧
    (∀ (W : Weewx) (v : PyVal), ov.format = none → ov.units = none →
      _float_to_string W (_get_template gsu key ov app us) v key us =
        .ok (pyStr v)) ∧
    (List.lookup "percent" UNIT_REDUCTIONS = some none) ∧
    (List.lookup "degree_compass" UNIT_REDUCTIONS = some none) := by
  refine ⟨rfl, rfl, ?_, ?_, ?_, ?_, ?_, ?_, rfl, rfl⟩
  · intro n hn
    simp [_get_template, hn]
  · intro hn ha
    simp [_get_template, hn, ha]
  · intro hn hu hg
    cases app <;> simp [_get_template, hn, hu, hg]
  · intro u l hn ha hu hg hl
    simp [_get_template, hn, ha, hu, hg, hl]
  · intro u hn ha hu hg hl
    simp [_get_template, hn, ha, hu, hg, hl]
  · intro W v hf hu
    simp [_float_to_string, _get_template, hf, hu, fmtApply]

/-- C7 witness: for the key outTemp with no overrides under the US unit
system with the append flag on, the resolved output name is
outTemp_F. -/
theorem claim_template_resolver_precedence_witness :
    (_get_template weewxUS.gsu "outTemp" {} true (PyVal.num "1")).name =
      some "outTemp_F" :=
  (claim_template_resolver_precedence weewxUS.gsu "outTemp" {} true
    (PyVal.num "1")).2.2.2.2.2.1 "degree_F" "F" rfl rfl rfl rfl rfl

theorem string_append_eq_empty (x y : String) :
    x ++ y = "" ↔ (x = "" ∧ y = "") := by
  rw [String.ext_iff, String.data_append, String.ext_iff, String.ext_iff]
  exact List.append_eq_nil

/-- C8 counterexample: with the static tag list configured as the string
binding=loop and a record that carries no binding entry, the tag segment
of the payload still starts with a binding= tag, refuting the stated
biconditional that the segment starts with a binding tag exactly when the
record carried a binding metadata field. -/
theorem claim_tag_segment_binding_shape :
    List.lookup "binding" recExamplePopped = none ∧
    mkTags (popKey recExamplePopped "binding").1 (some "binding=loop") =
      ",binding=loop" ∧
    strStarts ",binding=loop" ",binding=" = true ∧
    get_post_body weewxUS { cfgExample with tags := some "binding=loop" }
      recExamplePopped =
      .ok ("record,binding=loop outTemp_F=33.5,inTemp_F=75.8,outHumidity=24 1700000000",
           contentType, recExamplePopped) :=
  ⟨rfl, rfl, rfl, rfl⟩

/-- C8 (amended): the tag segment is the binding part followed by the
static part, where the binding part is ,binding=value exactly when the
record carried a binding entry other than None and the static part is a
comma and the configured tag list exactly when that list is truthy; the
segment is empty precisely when both parts are empty, and whenever the
record carried a binding entry the segment starts with ,binding= (the
converse direction of the original claim fails when the static tag list
itself begins with binding=). -/
theorem claim_tag_segment_amended (b : Option PyVal) (t : Option String) :
    (mkTags b t = bindingTag b ++ staticTag t) ∧
    (mkTags b t = "" ↔ (bindingTag b = "" ∧ staticTag t = "")) ∧
    (∀ v, b = some v → v ≠ PyVal.pynone →
      strStarts (mkTags b t) ",binding=" = true) := by
  have h1 : mkTags b t = bindingTag b ++ staticTag t := by
    rw [String.ext_iff]
    unfold mkTags bindingTag staticTag
    cases b with
    | none =>
      cases ht : strTruthy t <;> simp [ht, String.data_append]
    | some v =>
      by_cases hv : v = PyVal.pynone <;>
        cases ht : strTruthy t <;>
          simp [hv, ht, String.data_append]
  refine ⟨h1, ?_, ?_⟩
  · rw [h1, string_append_eq_empty]
  · intro v hv hne
    subst hv
    rw [h1]
    simp only [bindingTag]
    rw [if_neg hne, String.append_assoc]
    unfold strStarts
    rw [String.data_append]
    exact listStarts_append_self _ _

/-- C8 witness: with a binding of archive and static tags station=test
the tag segment is the binding tag followed by the static tags and it
starts with ,binding=. -/
theorem claim_tag_segment_amended_witness :
    (mkTags (some (PyVal.pstr "archive")) (some "station=test") =
      bindingTag (some (PyVal.pstr "archive")) ++ staticTag (some "station=test")) ∧
    strStarts (mkTags (some (PyVal.pstr "archive")) (some "station=test"))
      ",binding=" = true :=
  ⟨(claim_tag_segment_amended (some (PyVal.pstr "archive")) (some "station=test")).1,
   (claim_tag_segment_amended (some (PyVal.pstr "archive")) (some "station=test")).2.2
     (PyVal.pstr "archive") rfl (by decide)⟩

theorem benign_weewxUS : BenignW weewxUS := by
  constructor
  · intro fmt v e h
    simp [weewxUS] at h
    exact Or.inr h.symm
  · intro v u g tu e h
    simp [weewxUS] at h
    exact Or.inl h.symm

theorem fmtApply_error_benign (W : Weewx) (hW : BenignW W) (fmt : String)
    (v : PyVal) (e : PyExc) (h : fmtApply W fmt v = .error e) :
    e = PyExc.typeError ∨ e = PyExc.valueError := by
  unfold fmtApply at h
  split at h
  · exact absurd h (by simp)
  · exact hW.1 fmt v e h

theorem float_to_string_error_benign (W : Weewx) (hW : BenignW W)
    (template : Template) (v : PyVal) (key : String) (us : PyVal) (e : PyExc)
    (h : _float_to_string W template v key us = .error e) :
    e = PyExc.typeError ∨ e = PyExc.valueError := by
  unfold _float_to_string at h
  split at h
  · dsimp only at h
    split at h
    · next heq =>
      injection h with h
      subst h
      exact hW.2 _ _ _ _ _ heq
    · exact fmtApply_error_benign W hW _ _ _ h
  · dsimp only at h
    exact fmtApply_error_benign W hW _ _ _ h

theorem format_one_error_benign (W : Weewx) (hW : BenignW W) (cfg : Config)
    (key : String) (template : Template) (tags : String) (record : Record)
    (hk : (List.lookup key record).isSome = true)
    (hus : (List.lookup "usUnits" record).isSome = true)
    (hdt : (List.lookup "dateTime" record).isSome = true)
    (e : PyExc) (h : format_one W cfg key template tags record = .error e) :
    e = PyExc.typeError ∨ e = PyExc.valueError := by
  obtain ⟨v, hv⟩ := Option.isSome_iff_exists.mp hk
  obtain ⟨usv, husv⟩ := Option.isSome_iff_exists.mp hus
  obtain ⟨dtv, hdtv⟩ := Option.isSome_iff_exists.mp hdt
  simp only [format_one, recLookup, hv, husv, hdtv] at h
  split at h
  · next heq =>
    injection h with h
    subst h
    exact float_to_string_error_benign W hW template v key usv _ heq
  · split at h
    · exact absurd h (by simp)
    · split at h
      · exact absurd h (by simp)
      · exact absurd h (by simp)

theorem format_items_spec (W : Weewx) (hW : BenignW W) (cfg : Config)
    (tags : String) (record : Record)
    (hus : (List.lookup "usUnits" record).isSome = true)
    (hdt : (List.lookup "dateTime" record).isSome = true) :
    ∀ templates : List (String × Template),
      (∀ p ∈ templates, (List.lookup p.1 record).isSome = true) →
      format_items W cfg templates tags record =
        .ok (templates.filterMap
          (fun p => (format_one W cfg p.1 p.2 tags record).toOption)) := by
  intro templates
  induction templates with
  | nil => intro _; rfl
  | cons hd tl ih =>
    intro hk
    obtain ⟨key, template⟩ := hd
    have hkh : (List.lookup key record).isSome = true :=
      hk (key, template) (List.mem_cons_self _ _)
    have hkt : ∀ p ∈ tl, (List.lookup p.1 record).isSome = true :=
      fun p hp => hk p (List.mem_cons_of_mem _ hp)
    rw [format_items]
    cases hfo : format_one W cfg key template tags record with
    | ok line =>
      show (match format_items W cfg tl tags record with
            | Except.error e => Except.error e
            | Except.ok data => Except.ok (line :: data)) = _
      rw [ih hkt]
      simp [List.filterMap_cons, hfo, Except.toOption]
    | error e =>
      have hben := format_one_error_benign W hW cfg key template tags record
        hkh hus hdt e hfo
      show (if e = PyExc.typeError ∨ e = PyExc.valueError
            then format_items W cfg tl tags record
            else Except.error e) = _
      rw [if_pos hben, ih hkt]
      simp [List.filterMap_cons, hfo, Except.toOption]

theorem lookup_append_left_none {β : Type _} (k : String)
    (t1 t2 : List (String × β)) (h : List.lookup k t1 = none) :
    List.lookup k (t1 ++ t2) = List.lookup k t2 := by
  induction t1 with
  | nil => rfl
  | cons hd tl ih =>
    obtain ⟨k1, v1⟩ := hd
    by_cases hk : k = k1
    · subst hk
      simp [List.lookup] at h
    · have hbeq : (k == k1) = false := beq_eq_false_iff_ne.mpr hk
      have htl : List.lookup k tl = none := by rwa [List.lookup, hbeq] at h
      rw [List.cons_append, List.lookup, hbeq]
      exact ih htl

theorem lookup_isSome_of_mem_keys (r : Record) (k : String)
    (h : k ∈ r.map Prod.fst) : (List.lookup k r).isSome = true := by
  induction r with
  | nil => simp at h
  | cons hd tl ih =>
    obtain ⟨k1, v1⟩ := hd
    by_cases hk : k = k1
    · subst hk
      simp [List.lookup]
    · have hbeq : (k == k1) = false := beq_eq_false_iff_ne.mpr hk
      rw [List.lookup, hbeq]
      apply ih
      rcases (by simpa using h : k = k1 ∨ ∃ x, (k, x) ∈ tl) with h1 | ⟨x, hx⟩
      · exact absurd h1 hk
      · exact List.mem_map.mpr ⟨(k, x), hx, rfl⟩

theorem get_templates_go_spec (W : Weewx) (cfg : Config) (record : Record)
    (us : PyVal) (hus : List.lookup "usUnits" record = some us) :
    ∀ (l : List (String × PyVal)) (ts : List (String × Template)),
      (∀ k ∈ l.map Prod.fst, List.lookup k ts = none) →
      (l.map Prod.fst).Nodup →
      get_templates_go W cfg record l ts =
        .ok (ts ++ l.filterMap (tmplFor W cfg us)) := by
  intro l
  induction l with
  | nil =>
    intro ts _ _
    simp [get_templates_go]
  | cons hd tl ih =>
    intro ts hnone hnd
    obtain ⟨key, v⟩ := hd
    have hndtl : (tl.map Prod.fst).Nodup := by
      rw [List.map_cons] at hnd
      exact hnd.of_cons
    have hkeytl : key ∉ tl.map Prod.fst := by
      rw [List.map_cons] at hnd
      exact (List.nodup_cons.mp hnd).1
    rw [get_templates_go]
    by_cases hskip : cfg.obs_to_upload = "most" ∧ key ∈ OBS_TO_SKIP
    · rw [if_pos hskip,
        ih ts (fun k hk => hnone k (by simp [hk])) hndtl]
      simp [List.filterMap_cons, hskip, tmplFor]
    · rw [if_neg hskip]
      have hkey : List.lookup key ts = none := hnone key (by simp)
      have hrl : recLookup record "usUnits" = .ok us := by
        simp [recLookup, hus]
      rw [hkey]
      simp only [Option.isSome_none, Bool.false_eq_true, if_false, hrl]
      rw [ih (ts ++ [(key, _get_template W.gsu key (inputsGet cfg.inputs key)
            cfg.append_units_label us)])
          (fun k hk => by
            have hne : (k == key) = false := by
              refine beq_eq_false_iff_ne.mpr ?_
              intro he
              exact hkeytl (he ▸ hk)
            rw [lookup_append_left_none k ts _ (hnone k (by simp [hk])),
              List.lookup, hne]
            rfl)
          hndtl]
      simp [List.filterMap_cons, hskip, List.append_assoc, tmplFor]

theorem get_templates_spec (W : Weewx) (cfg : Config) (record : Record)
    (us : PyVal)
    (hsel : cfg.obs_to_upload = "all" ∨ cfg.obs_to_upload = "most")
    (hus : List.lookup "usUnits" record = some us)
    (hnd : (record.map Prod.fst).Nodup) :
    get_templates W cfg record =
      .ok (record.filterMap (tmplFor W cfg us)) := by
  unfold get_templates
  rw [if_pos hsel]
  simpa using get_templates_go_spec W cfg record us hus record []
    (by simp) hnd

/-- C3 counterexample: a template whose key is absent from the record
(as get_templates produces in explicit-inputs mode for an input not in
the record) makes format_items raise KeyError instead of skipping the
field, refuting the claim that format_items never raises and that a
missing key is merely omitted. -/
theorem claim_format_items_raises_on_missing_key :
    format_items weewxUS cfgExample [("foo", {})] ""
      [("usUnits", PyVal.num "1")] = .error PyExc.keyError := rfl

/-- C3 (amended): format_items skips exactly the fields whose conversion
or formatting fails with TypeError or ValueError and still emits the
remaining fields, provided every template key is present in the record
(and the usUnits and dateTime entries it reads exist): a key missing
from the record instead raises KeyError out of format_items. -/
theorem claim_format_items_total_amended (W : Weewx) (cfg : Config)
    (templates : List (String × Template)) (tags : String) (record : Record)
    (hW : BenignW W)
    (hk : ∀ p ∈ templates, (List.lookup p.1 record).isSome = true)
    (hus : (List.lookup "usUnits" record).isSome = true)
    (hdt : (List.lookup "dateTime" record).isSome = true) :
    format_items W cfg templates tags record =
      .ok (templates.filterMap
        (fun p => (format_one W cfg p.1 p.2 tags record).toOption)) :=
  format_items_spec W hW cfg tags record hus hdt templates hk

/-- C3 witness: on the example record with one well-formed template and
one template whose format makes the host formatter raise ValueError, the
failing field is omitted and the good field emitted. -/
theorem claim_format_items_total_amended_witness :
    format_items weewxUS cfgExample
      [("outTemp", {}), ("inTemp", { format := some "%d" })] ""
      recExamplePopped =
      .ok (List.filterMap
        (fun p => (format_one weewxUS cfgExample p.1 p.2 ""
          recExamplePopped).toOption)
        [("outTemp", {}), ("inTemp", { format := some "%d" })]) :=
  claim_format_items_total_amended weewxUS cfgExample
    [("outTemp", {}), ("inTemp", { format := some "%d" })] ""
    recExamplePopped benign_weewxUS (by decide) rfl rfl

/-- C6 counterexample: in explicit-inputs selection mode the encoder
iterates the inputs list in its own insertion order, not the insertion
order of the record: with inputs listing b before a and a record whose
insertion order is a before b, the payload carries b=2,a=1, refuting the
stated record insertion order. -/
theorem claim_inputs_mode_order_not_record_order :
    get_post_body weewxUS
      { server_url := "http://x", tags := none, obs_to_upload := "none",
        append_units_label := false, line_format := "single-line",
        inputs := [("b", {}), ("a", {})] }
      [("usUnits", PyVal.num "1"), ("dateTime", PyVal.num "9"),
       ("a", PyVal.num "1"), ("b", PyVal.num "2")] =
      .ok ("record b=2,a=1 9", contentType,
           [("usUnits", PyVal.num "1"), ("dateTime", PyVal.num "9"),
            ("a", PyVal.num "1"), ("b", PyVal.num "2")]) ∧
    ("record b=2,a=1 9" ≠ "record a=1,b=2 9") :=
  ⟨rfl, by decide⟩

/-- C6 (amended): in the all and most selection modes, the single-line
payload is the measurement, the tag segment, the comma-join of exactly
the convertible selected fields as name=value pairs in the insertion
order of the record, and the timestamp: each record entry contributes
through fieldFor at its own position, with none for the keys skipped by
most mode and for the fields whose conversion or formatting raised, so
with N selected fields of which M format successfully the payload has
exactly the M pairs in record insertion order (in explicit-inputs mode
the order is instead that of the inputs list). -/
theorem claim_payload_pairs_amended (W : Weewx) (cfg : Config)
    (record : Record) (us dt : PyVal)
    (hW : BenignW W)
    (hsel : cfg.obs_to_upload = "all" ∨ cfg.obs_to_upload = "most")
    (hline : cfg.line_format = "single-line")
    (hnd : (((popKey record "binding").2).map Prod.fst).Nodup)
    (hus : List.lookup "usUnits" (popKey record "binding").2 = some us)
    (hdt : List.lookup "dateTime" (popKey record "binding").2 = some dt) :
    get_post_body W cfg record = .ok
      (cfg.measurement ++ mkTags (popKey record "binding").1 cfg.tags ++ " " ++
       String.intercalate ","
         (((popKey record "binding").2).filterMap
           (fieldFor W cfg us (mkTags (popKey record "binding").1 cfg.tags)
             (popKey record "binding").2)) ++
       " " ++ pyStr dt,
       contentType, (popKey record "binding").2) := by
  have htempl := get_templates_spec W cfg ((popKey record "binding").2) us
    hsel hus hnd
  have hkeys : ∀ p ∈ ((popKey record "binding").2).filterMap (tmplFor W cfg us),
      (List.lookup p.1 ((popKey record "binding").2)).isSome = true := by
    intro p hp
    rcases List.mem_filterMap.mp hp with ⟨a, ha, hfa⟩
    by_cases hskip : cfg.obs_to_upload = "most" ∧ a.1 ∈ OBS_TO_SKIP
    · rw [tmplFor, if_pos hskip] at hfa
      cases hfa
    · rw [tmplFor, if_neg hskip] at hfa
      injection hfa with hfa
      apply lookup_isSome_of_mem_keys
      rw [← hfa]
      exact List.mem_map.mpr ⟨a, ha, rfl⟩
  have hfmt := format_items_spec W hW cfg
    (mkTags (popKey record "binding").1 cfg.tags) ((popKey record "binding").2)
    (by rw [hus]; rfl) (by rw [hdt]; rfl)
    (((popKey record "binding").2).filterMap (tmplFor W cfg us)) hkeys
  have hrl : recLookup ((popKey record "binding").2) "dateTime" = .ok dt := by
    simp [recLookup, hdt]
  have hcond : ¬(cfg.line_format = "multi-line" ∨
      cfg.line_format = "multi-line-dotted") := by
    rw [hline]
    decide
  have hcomb : (((popKey record "binding").2).filterMap
      (tmplFor W cfg us)).filterMap
      (fun p => (format_one W cfg p.1 p.2
        (mkTags (popKey record "binding").1 cfg.tags)
        ((popKey record "binding").2)).toOption) =
      ((popKey record "binding").2).filterMap
        (fieldFor W cfg us (mkTags (popKey record "binding").1 cfg.tags)
          ((popKey record "binding").2)) := by
    rw [List.filterMap_filterMap]
    rfl
  simp only [get_post_body, htempl, hfmt, hcomb]
  rw [if_neg hcond]
  simp only [hrl]

/-- C6 witness: on the example record in most mode the payload is the
comma-join, in record insertion order, of the fields that format
successfully. -/
theorem claim_payload_pairs_amended_witness :
    get_post_body weewxUS cfgExample recExample = .ok
      (cfgExample.measurement ++
       mkTags (popKey recExample "binding").1 cfgExample.tags ++ " " ++
       String.intercalate ","
         (((popKey recExample "binding").2).filterMap
           (fieldFor weewxUS cfgExample (PyVal.num "1")
             (mkTags (popKey recExample "binding").1 cfgExample.tags)
             (popKey recExample "binding").2)) ++
       " " ++ pyStr (PyVal.num "1700000000"),
       contentType, (popKey recExample "binding").2) :=
  claim_payload_pairs_amended weewxUS cfgExample recExample
    (PyVal.num "1") (PyVal.num "1700000000") benign_weewxUS
    (Or.inr rfl) rfl (by decide) rfl rfl

end Influx
